import Mathlib

/-!
Shallow embedding of the golf-sim core (Tracker + PuttStats) from
`src/cpp/src/tracker.cpp`, `src/cpp/src/putt_stats.cpp` and the matching
headers.  `float`/`double` values are modelled as rationals; `std::sqrt`
is passed in as an explicit function `f : ℚ → ℚ`, and theorems that need
the Euclidean reading of a speed constrain `f` to be exact at the points
where the code applies it.
-/

namespace GolfSim

/-- One candidate object observation for a frame (`frame_pipeline.h`). -/
structure Detection where
  class_id : Int
  confidence : ℚ
  x1 : ℚ
  y1 : ℚ
  x2 : ℚ
  y2 : ℚ
deriving DecidableEq, Repr

/-- Bounding-box center x: `(x1 + x2) * 0.5f`. -/
def Detection.cx (d : Detection) : ℚ := (d.x1 + d.x2) * (1 / 2)

/-- Bounding-box center y: `(y1 + y2) * 0.5f`. -/
def Detection.cy (d : Detection) : ℚ := (d.y1 + d.y2) * (1 / 2)

/-- Smoothed per-class state (`tracker.h`). -/
structure TrackedObject where
  class_id : Int := -1
  x : ℚ := 0
  y : ℚ := 0
  vx : ℚ := 0
  vy : ℚ := 0
  confidence : ℚ := 0
  frames_since_seen : Int := 0
  valid : Bool := false
deriving DecidableEq, Repr

/-- The EMA tracker: smoothing factor, lost threshold, one track per class
(`tracker.h`). -/
structure Tracker where
  alpha : ℚ
  max_lost : Int
  ball : TrackedObject
  putter : TrackedObject
deriving DecidableEq, Repr

/-- `Tracker::Tracker(float alpha, int max_lost)`: stores the parameters and
tags the two default-initialized tracks with their class ids.  The source
constructor performs no validation of `alpha` or `max_lost`. -/
def Tracker.init (alpha : ℚ) (max_lost : Int) : Tracker :=
  { alpha := alpha
    max_lost := max_lost
    ball := { class_id := 0 }
    putter := { class_id := 1 } }

/-- The best-detection selection loop at the top of `Tracker::update`
(tracker.cpp lines 20-33): a single pass keeping, per class, the first
detection whose confidence strictly exceeds the best confidence so far,
with both best-confidence accumulators starting at `0`. -/
def scanDetections : List Detection → Option Detection → Option Detection →
    ℚ → ℚ → Option Detection × Option Detection
  | [], best_ball, best_putter, _, _ => (best_ball, best_putter)
  | d :: ds, best_ball, best_putter, cb, cp =>
    if d.class_id = 0 ∧ d.confidence > cb then
      scanDetections ds (some d) best_putter d.confidence cp
    else if d.class_id = 1 ∧ d.confidence > cp then
      scanDetections ds best_ball (some d) cb d.confidence
    else
      scanDetections ds best_ball best_putter cb cp

/-- `Tracker::update_track`: apply one frame to a single track, given the
selected detection for its class (or none). -/
def Tracker.update_track (t : Tracker) (track : TrackedObject)
    (det : Option Detection) (dt : ℚ) : TrackedObject :=
  match det with
  | some d =>
    let new_x := d.cx
    let new_y := d.cy
    let tr :=
      if !track.valid then
        { track with x := new_x, y := new_y, vx := 0, vy := 0 }
      else
        let prev_x := track.x
        let prev_y := track.y
        let tr := { track with
          x := t.alpha * new_x + (1 - t.alpha) * track.x
          y := t.alpha * new_y + (1 - t.alpha) * track.y }
        if dt > 1 / 1000000 then
          let inst_vx := (tr.x - prev_x) / dt
          let inst_vy := (tr.y - prev_y) / dt
          { tr with
            vx := t.alpha * inst_vx + (1 - t.alpha) * tr.vx
            vy := t.alpha * inst_vy + (1 - t.alpha) * tr.vy }
        else tr
    { tr with confidence := d.confidence, frames_since_seen := 0, valid := true }
  | none =>
    let tr := { track with frames_since_seen := track.frames_since_seen + 1 }
    if tr.frames_since_seen > t.max_lost then
      { tr with valid := false, vx := 0, vy := 0 }
    else if tr.valid then
      { tr with
        x := tr.x + tr.vx * dt
        y := tr.y + tr.vy * dt
        vx := tr.vx * (9 / 10)
        vy := tr.vy * (9 / 10) }
    else tr

/-- `Tracker::update`: select the best detection per class, then update
both tracks. -/
def Tracker.update (t : Tracker) (dets : List Detection) (dt : ℚ) : Tracker :=
  let best := scanDetections dets none none 0 0
  { t with
    ball := t.update_track t.ball best.1 dt
    putter := t.update_track t.putter best.2 dt }

/-- Putt state machine states (`putt_stats.h`). -/
inductive PuttState
  | IDLE
  | IN_MOTION
  | STOPPED
deriving DecidableEq, Repr

/-- Snapshot of one putt, in progress or completed (`putt_stats.h`). -/
structure PuttData where
  putt_number : Int := 0
  state : PuttState := PuttState.IDLE
  launch_speed : ℚ := 0
  current_speed : ℚ := 0
  peak_speed : ℚ := 0
  total_distance : ℚ := 0
  break_distance : ℚ := 0
  time_in_motion : ℚ := 0
  start_x : ℚ := 0
  start_y : ℚ := 0
  final_x : ℚ := 0
  final_y : ℚ := 0
deriving DecidableEq, Repr

/-- Full PuttStats object state: configuration plus all private fields
(`putt_stats.h`). -/
structure PuttStats where
  motion_threshold : ℚ
  stop_frames_required : Int
  current : PuttData := {}
  history : List PuttData := []
  frames_below_threshold : Int := 0
  prev_x : ℚ := 0
  prev_y : ℚ := 0
  has_prev : Bool := false
  dir_x : ℚ := 0
  dir_y : ℚ := 0
  has_direction : Bool := false
deriving DecidableEq, Repr

/-- `PuttStats::PuttStats(float motion_threshold, int stop_frames)`: stores
the two configuration values; everything else keeps its in-class default.
The source constructor performs no validation. -/
def PuttStats.init (motion_threshold : ℚ) (stop_frames : Int) : PuttStats :=
  { motion_threshold := motion_threshold, stop_frames_required := stop_frames }

/-- The shared Idle→InMotion / Stopped→InMotion entry block
(putt_stats.cpp lines 64-87 and 103-126): reset the live `PuttData`,
capture the unit launch direction when `|v| > 1e-6`, clear the
below-threshold counter.  `f` is the `std::sqrt` model. -/
def PuttStats.enterMotion (f : ℚ → ℚ) (s : PuttStats) (ball : TrackedObject)
    (speed : ℚ) : PuttStats :=
  let vmag := f (ball.vx * ball.vx + ball.vy * ball.vy)
  let hasDir := vmag > 1 / 1000000
  { s with
    current := { s.current with
      state := PuttState.IN_MOTION
      putt_number := (s.history.length : Int) + 1
      launch_speed := speed
      peak_speed := speed
      total_distance := 0
      break_distance := 0
      time_in_motion := 0
      start_x := ball.x
      start_y := ball.y
      final_x := ball.x
      final_y := ball.y }
    dir_x := if hasDir then ball.vx / vmag else s.dir_x
    dir_y := if hasDir then ball.vy / vmag else s.dir_y
    has_direction := hasDir
    frames_below_threshold := 0 }

/-- First half of `PuttStats::update` (putt_stats.cpp lines 24-59): record
the current speed, accumulate distance / time / peak / break while
`IN_MOTION` and a previous position exists, then refresh the previous
position. -/
def PuttStats.accumPhase (f : ℚ → ℚ) (s : PuttStats) (ball : TrackedObject)
    (dt : ℚ) : PuttStats :=
  let speed := f (ball.vx * ball.vx + ball.vy * ball.vy)
  let cur := { s.current with current_speed := speed }
  let cur :=
    if s.has_prev then
      if cur.state = PuttState.IN_MOTION then
        let dx := ball.x - s.prev_x
        let dy := ball.y - s.prev_y
        let frame_dist := f (dx * dx + dy * dy)
        let cur := { cur with
          total_distance := cur.total_distance + frame_dist
          time_in_motion := cur.time_in_motion + dt }
        let cur :=
          if speed > cur.peak_speed then { cur with peak_speed := speed } else cur
        let cur :=
          if s.has_direction then
            let rx := ball.x - cur.start_x
            let ry := ball.y - cur.start_y
            let cross := |rx * s.dir_y - ry * s.dir_x|
            if cross > cur.break_distance then
              { cur with break_distance := cross }
            else cur
          else cur
        { cur with final_x := ball.x, final_y := ball.y }
      else cur
    else cur
  { s with
    current := cur
    prev_x := ball.x
    prev_y := ball.y
    has_prev := true }

/-- Second half of `PuttStats::update` (putt_stats.cpp lines 62-128): the
state-transition switch. -/
def PuttStats.transitionPhase (f : ℚ → ℚ) (s : PuttStats) (ball : TrackedObject)
    (speed : ℚ) : PuttStats :=
  match s.current.state with
  | PuttState.IDLE =>
    if speed > s.motion_threshold then s.enterMotion f ball speed else s
  | PuttState.IN_MOTION =>
    if speed < s.motion_threshold then
      let fbt := s.frames_below_threshold + 1
      if fbt ≥ s.stop_frames_required then
        let finished := { s.current with state := PuttState.STOPPED }
        { s with
          current := finished
          frames_below_threshold := fbt
          history := s.history ++ [finished] }
      else
        { s with frames_below_threshold := fbt }
    else
      { s with frames_below_threshold := 0 }
  | PuttState.STOPPED =>
    if speed > s.motion_threshold then s.enterMotion f ball speed else s

/-- `PuttStats::update(const TrackedObject& ball, double dt)`
(putt_stats.cpp lines 16-129), with `f` modelling `std::sqrt`: early
return on an invalid ball, otherwise the accumulation phase followed by
the state-transition switch. -/
def PuttStats.update (f : ℚ → ℚ) (s : PuttStats) (ball : TrackedObject)
    (dt : ℚ) : PuttStats :=
  if !ball.valid then
    { s with has_prev := false }
  else
    let speed := f (ball.vx * ball.vx + ball.vy * ball.vy)
    PuttStats.transitionPhase f (PuttStats.accumPhase f s ball dt) ball speed

/-- Applying `PuttStats::update` over a list of frames in order. -/
def runUpdates (f : ℚ → ℚ) (s : PuttStats) : List (TrackedObject × ℚ) → PuttStats
  | [] => s
  | frame :: rest => runUpdates f (PuttStats.update f s frame.1 frame.2) rest

/-- Session aggregate record (`putt_stats.h`). -/
structure SessionSummary where
  total_putts : Int := 0
  avg_launch_speed : ℚ := 0
  avg_distance : ℚ := 0
  avg_break : ℚ := 0
  avg_time : ℚ := 0
deriving DecidableEq, Repr

/-- Body of the accumulation loop in `PuttStats::session()`
(putt_stats.cpp lines 147-152). -/
def sessionAccum (a : SessionSummary) (p : PuttData) : SessionSummary :=
  { a with
    avg_launch_speed := a.avg_launch_speed + p.launch_speed
    avg_distance := a.avg_distance + p.total_distance
    avg_break := a.avg_break + p.break_distance
    avg_time := a.avg_time + p.time_in_motion }

/-- `PuttStats::session()` (putt_stats.cpp lines 141-159): sum each field
over `history` and divide by the count, returning all zeros when the
history is empty. -/
def PuttStats.session (s : PuttStats) : SessionSummary :=
  let init0 : SessionSummary := { total_putts := (s.history.length : Int) }
  if init0.total_putts = 0 then init0
  else
    let acc := s.history.foldl sessionAccum init0
    let n : ℚ := (init0.total_putts : ℚ)
    { acc with
      avg_launch_speed := acc.avg_launch_speed / n
      avg_distance := acc.avg_distance / n
      avg_break := acc.avg_break / n
      avg_time := acc.avg_time / n }

/-- `f` agrees with the exact (nonnegative) square root at the point `q`. -/
def IsSqrtAt (f : ℚ → ℚ) (q : ℚ) : Prop := 0 ≤ f q ∧ f q * f q = q

/-- Concrete square-root table used to evaluate the model on the specific
inputs of the closed examples below (exact on the perfect squares that
occur there). -/
def sqrtTab (q : ℚ) : ℚ :=
  if q = 0 then 0
  else if q = 25 then 5
  else if q = 100 then 10
  else if q = 169 then 13
  else if q = 4 then 2
  else if q = 9 then 3
  else if q = 16 then 4
  else 0

/-! ### Helper lemmas about the accumulation phase -/

@[simp]
lemma accum_state (f : ℚ → ℚ) (s : PuttStats) (ball : TrackedObject) (dt : ℚ) :
    (PuttStats.accumPhase f s ball dt).current.state = s.current.state := by
  simp only [PuttStats.accumPhase]
  split_ifs <;> rfl

@[simp]
lemma accum_history (f : ℚ → ℚ) (s : PuttStats) (ball : TrackedObject) (dt : ℚ) :
    (PuttStats.accumPhase f s ball dt).history = s.history := by
  simp [PuttStats.accumPhase]

@[simp]
lemma accum_threshold (f : ℚ → ℚ) (s : PuttStats) (ball : TrackedObject) (dt : ℚ) :
    (PuttStats.accumPhase f s ball dt).motion_threshold = s.motion_threshold := by
  simp [PuttStats.accumPhase]

@[simp]
lemma accum_required (f : ℚ → ℚ) (s : PuttStats) (ball : TrackedObject) (dt : ℚ) :
    (PuttStats.accumPhase f s ball dt).stop_frames_required = s.stop_frames_required := by
  simp [PuttStats.accumPhase]

@[simp]
lemma accum_fbt (f : ℚ → ℚ) (s : PuttStats) (ball : TrackedObject) (dt : ℚ) :
    (PuttStats.accumPhase f s ball dt).frames_below_threshold
      = s.frames_below_threshold := by
  simp [PuttStats.accumPhase]

@[simp]
lemma accum_dir_x (f : ℚ → ℚ) (s : PuttStats) (ball : TrackedObject) (dt : ℚ) :
    (PuttStats.accumPhase f s ball dt).dir_x = s.dir_x := by
  simp [PuttStats.accumPhase]

@[simp]
lemma accum_dir_y (f : ℚ → ℚ) (s : PuttStats) (ball : TrackedObject) (dt : ℚ) :
    (PuttStats.accumPhase f s ball dt).dir_y = s.dir_y := by
  simp [PuttStats.accumPhase]

@[simp]
lemma accum_has_direction (f : ℚ → ℚ) (s : PuttStats) (ball : TrackedObject) (dt : ℚ) :
    (PuttStats.accumPhase f s ball dt).has_direction = s.has_direction := by
  simp [PuttStats.accumPhase]

@[simp]
lemma accum_has_prev (f : ℚ → ℚ) (s : PuttStats) (ball : TrackedObject) (dt : ℚ) :
    (PuttStats.accumPhase f s ball dt).has_prev = true := by
  simp [PuttStats.accumPhase]

@[simp]
lemma accum_start_x (f : ℚ → ℚ) (s : PuttStats) (ball : TrackedObject) (dt : ℚ) :
    (PuttStats.accumPhase f s ball dt).current.start_x = s.current.start_x := by
  simp only [PuttStats.accumPhase]
  split_ifs <;> rfl

@[simp]
lemma accum_start_y (f : ℚ → ℚ) (s : PuttStats) (ball : TrackedObject) (dt : ℚ) :
    (PuttStats.accumPhase f s ball dt).current.start_y = s.current.start_y := by
  simp only [PuttStats.accumPhase]
  split_ifs <;> rfl

@[simp]
lemma accum_putt_number (f : ℚ → ℚ) (s : PuttStats) (ball : TrackedObject) (dt : ℚ) :
    (PuttStats.accumPhase f s ball dt).current.putt_number
      = s.current.putt_number := by
  simp only [PuttStats.accumPhase]
  split_ifs <;> rfl

@[simp]
lemma accum_launch_speed (f : ℚ → ℚ) (s : PuttStats) (ball : TrackedObject) (dt : ℚ) :
    (PuttStats.accumPhase f s ball dt).current.launch_speed
      = s.current.launch_speed := by
  simp only [PuttStats.accumPhase]
  split_ifs <;> rfl

@[simp]
lemma accum_total_distance_no_prev (f : ℚ → ℚ) (s : PuttStats) (ball : TrackedObject)
    (dt : ℚ) (hp : s.has_prev = false) :
    (PuttStats.accumPhase f s ball dt).current.total_distance
      = s.current.total_distance := by
  unfold PuttStats.accumPhase
  simp [hp]

@[simp]
lemma accum_not_inMotion (f : ℚ → ℚ) (s : PuttStats) (ball : TrackedObject)
    (dt : ℚ) (hst : s.current.state ≠ PuttState.IN_MOTION) :
    (PuttStats.accumPhase f s ball dt).current
      = { s.current with current_speed := f (ball.vx * ball.vx + ball.vy * ball.vy) } := by
  unfold PuttStats.accumPhase
  simp [hst]

/-! ### Helper lemmas about the transition phase -/

lemma trans_idle_stay (f : ℚ → ℚ) (s : PuttStats) (ball : TrackedObject) (speed : ℚ)
    (hst : s.current.state = PuttState.IDLE) (hle : ¬ speed > s.motion_threshold) :
    PuttStats.transitionPhase f s ball speed = s := by
  unfold PuttStats.transitionPhase
  rw [hst]
  simp [hle]

lemma trans_idle_go (f : ℚ → ℚ) (s : PuttStats) (ball : TrackedObject) (speed : ℚ)
    (hst : s.current.state = PuttState.IDLE) (hgt : speed > s.motion_threshold) :
    PuttStats.transitionPhase f s ball speed = s.enterMotion f ball speed := by
  unfold PuttStats.transitionPhase
  rw [hst]
  simp [hgt]

lemma trans_stopped_stay (f : ℚ → ℚ) (s : PuttStats) (ball : TrackedObject) (speed : ℚ)
    (hst : s.current.state = PuttState.STOPPED) (hle : ¬ speed > s.motion_threshold) :
    PuttStats.transitionPhase f s ball speed = s := by
  unfold PuttStats.transitionPhase
  rw [hst]
  simp [hle]

lemma trans_stopped_go (f : ℚ → ℚ) (s : PuttStats) (ball : TrackedObject) (speed : ℚ)
    (hst : s.current.state = PuttState.STOPPED) (hgt : speed > s.motion_threshold) :
    PuttStats.transitionPhase f s ball speed = s.enterMotion f ball speed := by
  unfold PuttStats.transitionPhase
  rw [hst]
  simp [hgt]

lemma trans_inMotion_fast (f : ℚ → ℚ) (s : PuttStats) (ball : TrackedObject) (speed : ℚ)
    (hst : s.current.state = PuttState.IN_MOTION) (hge : ¬ speed < s.motion_threshold) :
    PuttStats.transitionPhase f s ball speed = { s with frames_below_threshold := 0 } := by
  unfold PuttStats.transitionPhase
  rw [hst]
  simp [hge]

lemma trans_inMotion_slow (f : ℚ → ℚ) (s : PuttStats) (ball : TrackedObject) (speed : ℚ)
    (hst : s.current.state = PuttState.IN_MOTION) (hlt : speed < s.motion_threshold)
    (hcnt : s.frames_below_threshold + 1 < s.stop_frames_required) :
    PuttStats.transitionPhase f s ball speed
      = { s with frames_below_threshold := s.frames_below_threshold + 1 } := by
  unfold PuttStats.transitionPhase
  rw [hst]
  simp [hlt]
  omega

lemma trans_inMotion_stop (f : ℚ → ℚ) (s : PuttStats) (ball : TrackedObject) (speed : ℚ)
    (hst : s.current.state = PuttState.IN_MOTION) (hlt : speed < s.motion_threshold)
    (hcnt : s.stop_frames_required ≤ s.frames_below_threshold + 1) :
    PuttStats.transitionPhase f s ball speed
      = { s with
          current := { s.current with state := PuttState.STOPPED }
          frames_below_threshold := s.frames_below_threshold + 1
          history := s.history ++ [{ s.current with state := PuttState.STOPPED }] } := by
  unfold PuttStats.transitionPhase
  rw [hst]
  simp [hlt]
  omega

lemma update_valid (f : ℚ → ℚ) (s : PuttStats) (ball : TrackedObject) (dt : ℚ)
    (hv : ball.valid = true) :
    PuttStats.update f s ball dt
      = PuttStats.transitionPhase f (PuttStats.accumPhase f s ball dt) ball
          (f (ball.vx * ball.vx + ball.vy * ball.vy)) := by
  unfold PuttStats.update
  simp [hv]

lemma update_invalid (f : ℚ → ℚ) (s : PuttStats) (ball : TrackedObject) (dt : ℚ)
    (hv : ball.valid = false) :
    PuttStats.update f s ball dt = { s with has_prev := false } := by
  unfold PuttStats.update
  simp [hv]

lemma trans_inMotion_total_distance (f : ℚ → ℚ) (s : PuttStats) (ball : TrackedObject)
    (speed : ℚ) (hst : s.current.state = PuttState.IN_MOTION) :
    (PuttStats.transitionPhase f s ball speed).current.total_distance
      = s.current.total_distance := by
  unfold PuttStats.transitionPhase
  rw [hst]
  dsimp only
  split_ifs <;> rfl

lemma trans_inMotion_break (f : ℚ → ℚ) (s : PuttStats) (ball : TrackedObject)
    (speed : ℚ) (hst : s.current.state = PuttState.IN_MOTION) :
    (PuttStats.transitionPhase f s ball speed).current.break_distance
      = s.current.break_distance := by
  unfold PuttStats.transitionPhase
  rw [hst]
  dsimp only
  split_ifs <;> rfl

/-! ### Arithmetic helper: the exact square root versus squared comparisons -/

lemma sqrt_gt_iff (f : ℚ → ℚ) (q t : ℚ) (hf : IsSqrtAt f q) (ht : 0 ≤ t) :
    t < f q ↔ t * t < q := by
  obtain ⟨h0, h2⟩ := hf
  constructor
  · intro h
    nlinarith
  · intro h
    nlinarith

/-! ### Session-aggregation lemma -/

lemma foldl_sessionAccum (l : List PuttData) (a : SessionSummary) :
    l.foldl sessionAccum a =
      { a with
        avg_launch_speed := a.avg_launch_speed + (l.map PuttData.launch_speed).sum
        avg_distance := a.avg_distance + (l.map PuttData.total_distance).sum
        avg_break := a.avg_break + (l.map PuttData.break_distance).sum
        avg_time := a.avg_time + (l.map PuttData.time_in_motion).sum } := by
  induction l generalizing a with
  | nil => simp
  | cons p l ih =>
    simp [List.foldl_cons, ih, sessionAccum, add_assoc]

/-! ### Claim theorems -/

/-- C4 (code bug): neither constructor validates its configuration.
`Tracker(2, -1)` and `PuttStats(-3, 0)` are accepted verbatim, and the
`PuttStats` built with a negative motion threshold immediately classifies a
perfectly still ball as a putt in motion, instead of the construction
being rejected with a descriptive failure as the spec requires. -/
theorem C4_constructors_unchecked :
    (Tracker.init 2 (-1)).alpha = 2 ∧
    (Tracker.init 2 (-1)).max_lost = -1 ∧
    (PuttStats.init (-3) 0).motion_threshold = -3 ∧
    (PuttStats.init (-3) 0).stop_frames_required = 0 ∧
    (PuttStats.update sqrtTab (PuttStats.init (-3) 0)
        { class_id := 0, x := 0, y := 0, vx := 0, vy := 0, confidence := 1,
          frames_since_seen := 0, valid := true } 1).current.state
      = PuttState.IN_MOTION := by
  refine ⟨rfl, rfl, rfl, rfl, ?_⟩
  norm_num [PuttStats.update, PuttStats.accumPhase, PuttStats.transitionPhase,
    PuttStats.enterMotion, PuttStats.init, sqrtTab]

/-- C6: an update with an invalid ball changes nothing except clearing
`has_prev`, and the next update with a valid ball while `IN_MOTION` adds no
gap-spanning distance to `total_distance`. -/
theorem C6_invalid_frame_pauses (f : ℚ → ℚ) (s : PuttStats)
    (ball ball2 : TrackedObject) (dt dt2 : ℚ) (hv : ball.valid = false) :
    PuttStats.update f s ball dt = { s with has_prev := false } ∧
    (s.current.state = PuttState.IN_MOTION → ball2.valid = true →
      (PuttStats.update f (PuttStats.update f s ball dt) ball2 dt2).current.total_distance
        = s.current.total_distance) := by
  refine ⟨update_invalid f s ball dt hv, ?_⟩
  intro hst hv2
  rw [update_invalid f s ball dt hv, update_valid _ _ _ _ hv2]
  rw [trans_inMotion_total_distance]
  · rw [accum_total_distance_no_prev]
    rfl
  · rw [accum_state]
    exact hst

/-- C6 witness: a concrete invalid-ball frame followed by a valid frame. -/
theorem C6_witness :
    PuttStats.update sqrtTab
        { motion_threshold := 5, stop_frames_required := 15,
          current := { state := PuttState.IN_MOTION, total_distance := 7 },
          has_prev := true, prev_x := 1, prev_y := 1 }
        { class_id := 0, valid := false } 1
      = { motion_threshold := 5, stop_frames_required := 15,
          current := { state := PuttState.IN_MOTION, total_distance := 7 },
          has_prev := false, prev_x := 1, prev_y := 1 } ∧
    (PuttStats.update sqrtTab
        (PuttStats.update sqrtTab
          { motion_threshold := 5, stop_frames_required := 15,
            current := { state := PuttState.IN_MOTION, total_distance := 7 },
            has_prev := true, prev_x := 1, prev_y := 1 }
          { class_id := 0, valid := false } 1)
        { class_id := 0, x := 40, y := 0, vx := 0, vy := 10, confidence := 1,
          frames_since_seen := 0, valid := true } 1).current.total_distance = 7 := by
  have h := C6_invalid_frame_pauses sqrtTab
    { motion_threshold := 5, stop_frames_required := 15,
      current := { state := PuttState.IN_MOTION, total_distance := 7 },
      has_prev := true, prev_x := 1, prev_y := 1 }
    { class_id := 0, valid := false }
    { class_id := 0, x := 40, y := 0, vx := 0, vy := 10, confidence := 1,
      frames_since_seen := 0, valid := true } 1 1 rfl
  exact ⟨h.1, h.2 rfl rfl⟩

/-- C7: with no matching detection, the track increments `frames_since_seen`;
strictly past `max_lost` it is declared lost (`valid = false`, velocity
zeroed, position and confidence retained), while exactly at `max_lost` a
valid track still coasts (position advances by `velocity * dt`, each
velocity component decays by the factor `0.9`). -/
theorem C7_lost_vs_coast (t : Tracker) (track : TrackedObject) (dt : ℚ) :
    (t.max_lost < track.frames_since_seen + 1 →
      Tracker.update_track t track none dt =
        { track with
          frames_since_seen := track.frames_since_seen + 1
          valid := false
          vx := 0
          vy := 0 }) ∧
    (track.frames_since_seen + 1 = t.max_lost → track.valid = true →
      Tracker.update_track t track none dt =
        { track with
          frames_since_seen := track.frames_since_seen + 1
          x := track.x + track.vx * dt
          y := track.y + track.vy * dt
          vx := track.vx * (9 / 10)
          vy := track.vy * (9 / 10) }) := by
  constructor
  · intro h
    simp [Tracker.update_track, h]
  · intro h hv
    have hno : ¬ (t.max_lost < track.frames_since_seen + 1) := by omega
    simp [Tracker.update_track, hno, hv]

/-- C7 witness: the lost branch at `frames_since_seen = 15`, `max_lost = 15`
(16 > 15), and the coast branch at `frames_since_seen = 14` (15 = 15). -/
theorem C7_witness :
    Tracker.update_track (Tracker.init (6/10) 15)
        { class_id := 0, x := 10, y := 20, vx := 2, vy := -4, confidence := 1/2,
          frames_since_seen := 15, valid := true } none 1
      = { class_id := 0, x := 10, y := 20, vx := 0, vy := 0, confidence := 1/2,
          frames_since_seen := 16, valid := false } ∧
    Tracker.update_track (Tracker.init (6/10) 15)
        { class_id := 0, x := 10, y := 20, vx := 2, vy := -4, confidence := 1/2,
          frames_since_seen := 14, valid := true } none 1
      = { class_id := 0, x := 12, y := 16, vx := 9/5, vy := -18/5, confidence := 1/2,
          frames_since_seen := 15, valid := true } := by
  constructor
  · have h := (C7_lost_vs_coast (Tracker.init (6/10) 15)
      { class_id := 0, x := 10, y := 20, vx := 2, vy := -4, confidence := 1/2,
        frames_since_seen := 15, valid := true } 1).1 (by norm_num [Tracker.init])
    rw [h]
    norm_num
  · have h := (C7_lost_vs_coast (Tracker.init (6/10) 15)
      { class_id := 0, x := 10, y := 20, vx := 2, vy := -4, confidence := 1/2,
        frames_since_seen := 14, valid := true } 1).2 (by norm_num [Tracker.init]) rfl
    rw [h]
    norm_num

/-- C9: `session()` reports `total_putts = history.len()`, all-zero averages
for an empty history, and the arithmetic mean of each field otherwise. -/
theorem C9_session_aggregates (s : PuttStats) :
    (PuttStats.session s).total_putts = (s.history.length : Int) ∧
    (s.history.length = 0 →
      (PuttStats.session s).avg_launch_speed = 0 ∧
      (PuttStats.session s).avg_distance = 0 ∧
      (PuttStats.session s).avg_break = 0 ∧
      (PuttStats.session s).avg_time = 0) ∧
    (s.history.length ≠ 0 →
      (PuttStats.session s).avg_launch_speed
        = (s.history.map PuttData.launch_speed).sum / (s.history.length : ℚ) ∧
      (PuttStats.session s).avg_distance
        = (s.history.map PuttData.total_distance).sum / (s.history.length : ℚ) ∧
      (PuttStats.session s).avg_break
        = (s.history.map PuttData.break_distance).sum / (s.history.length : ℚ) ∧
      (PuttStats.session s).avg_time
        = (s.history.map PuttData.time_in_motion).sum / (s.history.length : ℚ)) := by
  unfold PuttStats.session
  by_cases h : s.history.length = 0
  · simp [h]
  · have h' : ¬ ((s.history.length : Int) = 0) := by
      exact_mod_cast h
    simp [h', h, foldl_sessionAccum]

/-- C9 witness: the empty session and a three-putt session with launch
speeds 2, 4 and 9 (mean 5). -/
theorem C9_witness :
    ((PuttStats.session (PuttStats.init 5 15)).avg_launch_speed = 0 ∧
     (PuttStats.session (PuttStats.init 5 15)).avg_distance = 0 ∧
     (PuttStats.session (PuttStats.init 5 15)).avg_break = 0 ∧
     (PuttStats.session (PuttStats.init 5 15)).avg_time = 0) ∧
    (PuttStats.session
        { motion_threshold := 5, stop_frames_required := 15,
          history := [{ putt_number := 1, state := PuttState.STOPPED, launch_speed := 2 },
                      { putt_number := 2, state := PuttState.STOPPED, launch_speed := 4 },
                      { putt_number := 3, state := PuttState.STOPPED, launch_speed := 9 }] }).avg_launch_speed
      = (([{ putt_number := 1, state := PuttState.STOPPED, launch_speed := 2 },
           { putt_number := 2, state := PuttState.STOPPED, launch_speed := 4 },
           { putt_number := 3, state := PuttState.STOPPED, launch_speed := 9 }] :
            List PuttData).map PuttData.launch_speed).sum / 3 := by
  constructor
  · exact (C9_session_aggregates (PuttStats.init 5 15)).2.1 rfl
  · exact ((C9_session_aggregates _).2.2 (by decide)).1

/-- C10: with a selected detection, a valid track and `dt ≤ 1e-6`, the
velocity components are left exactly as they were while the position is
still EMA-updated toward the detection center. -/
theorem C10_tiny_dt_keeps_velocity (t : Tracker) (track : TrackedObject)
    (d : Detection) (dt : ℚ) (hv : track.valid = true) (hdt : dt ≤ 1 / 1000000) :
    Tracker.update_track t track (some d) dt =
      { track with
        x := t.alpha * d.cx + (1 - t.alpha) * track.x
        y := t.alpha * d.cy + (1 - t.alpha) * track.y
        confidence := d.confidence
        frames_since_seen := 0
        valid := true } := by
  have hno : ¬ ((1000000 : ℚ)⁻¹ < dt) := by
    rw [← one_div]
    exact not_lt.mpr hdt
  simp [Tracker.update_track, hv, hno]

/-- C10 witness: a concrete valid track updated with `dt = 1e-6` keeps its
velocity `(3, -7)` and EMA-moves its position. -/
theorem C10_witness :
    Tracker.update_track (Tracker.init (1/2) 15)
        { class_id := 0, x := 10, y := 20, vx := 3, vy := -7, confidence := 1/4,
          frames_since_seen := 0, valid := true }
        (some { class_id := 0, confidence := 9/10, x1 := 20, y1 := 30, x2 := 40, y2 := 50 })
        (1 / 1000000)
      = { class_id := 0, x := 20, y := 30, vx := 3, vy := -7, confidence := 9/10,
          frames_since_seen := 0, valid := true } := by
  have h := C10_tiny_dt_keeps_velocity (Tracker.init (1/2) 15)
    { class_id := 0, x := 10, y := 20, vx := 3, vy := -7, confidence := 1/4,
      frames_since_seen := 0, valid := true }
    { class_id := 0, confidence := 9/10, x1 := 20, y1 := 30, x2 := 40, y2 := 50 }
    (1 / 1000000) rfl le_rfl
  rw [h]
  norm_num [Detection.cx, Detection.cy, Tracker.init]

/-- C1 (counterexample): with `motion_threshold = 5` and a valid ball whose
velocity is `(3, 4)` — Euclidean speed exactly `5`, i.e. exactly at the
threshold — `update` leaves the state `IDLE`: the claimed at-or-above
trigger does not fire, because the code uses a strict comparison. -/
theorem C1_at_threshold_no_transition :
    IsSqrtAt sqrtTab ((3 : ℚ) * 3 + 4 * 4) ∧
    sqrtTab ((3 : ℚ) * 3 + 4 * 4) = (PuttStats.init 5 15).motion_threshold ∧
    (PuttStats.init 5 15).current.state = PuttState.IDLE ∧
    (PuttStats.update sqrtTab (PuttStats.init 5 15)
        { class_id := 0, x := 0, y := 0, vx := 3, vy := 4, confidence := 1,
          frames_since_seen := 0, valid := true } 1).current.state
      = PuttState.IDLE := by
  refine ⟨⟨by norm_num [sqrtTab], by norm_num [sqrtTab]⟩,
          by norm_num [sqrtTab, PuttStats.init], rfl, ?_⟩
  norm_num [PuttStats.update, PuttStats.accumPhase, PuttStats.transitionPhase,
    PuttStats.init, sqrtTab]

/-- C1 (amended): in `IDLE`, a valid ball whose Euclidean speed is strictly
above `motion_threshold` transitions to `IN_MOTION` on that frame, and
`putt_number` is set to `history.len() + 1`. -/
theorem C1_idle_trigger (f : ℚ → ℚ) (s : PuttStats) (ball : TrackedObject) (dt : ℚ)
    (hst : s.current.state = PuttState.IDLE)
    (hv : ball.valid = true)
    (hf : IsSqrtAt f (ball.vx * ball.vx + ball.vy * ball.vy))
    (ht : 0 ≤ s.motion_threshold)
    (hgt : s.motion_threshold * s.motion_threshold
             < ball.vx * ball.vx + ball.vy * ball.vy) :
    (PuttStats.update f s ball dt).current.state = PuttState.IN_MOTION ∧
    (PuttStats.update f s ball dt).current.putt_number
      = (s.history.length : Int) + 1 := by
  have hsp : s.motion_threshold < f (ball.vx * ball.vx + ball.vy * ball.vy) :=
    (sqrt_gt_iff f _ _ hf ht).mpr hgt
  rw [update_valid f s ball dt hv]
  rw [trans_idle_go]
  · constructor
    · simp [PuttStats.enterMotion]
    · simp [PuttStats.enterMotion]
  · rw [accum_state]
    exact hst
  · rw [accum_threshold]
    exact hsp

/-- C1 witness: the first putt of a fresh `PuttStats(5, 15)` for a ball of
Euclidean speed 10 gets `putt_number = 1`. -/
theorem C1_witness :
    (PuttStats.update sqrtTab (PuttStats.init 5 15)
        { class_id := 0, x := 0, y := 0, vx := 0, vy := 10, confidence := 1,
          frames_since_seen := 0, valid := true } 1).current.state
      = PuttState.IN_MOTION ∧
    (PuttStats.update sqrtTab (PuttStats.init 5 15)
        { class_id := 0, x := 0, y := 0, vx := 0, vy := 10, confidence := 1,
          frames_since_seen := 0, valid := true } 1).current.putt_number
      = ((PuttStats.init 5 15).history.length : Int) + 1 :=
  C1_idle_trigger sqrtTab (PuttStats.init 5 15)
    { class_id := 0, x := 0, y := 0, vx := 0, vy := 10, confidence := 1,
      frames_since_seen := 0, valid := true } 1
    rfl rfl ⟨by norm_num [sqrtTab], by norm_num [sqrtTab]⟩
    (by norm_num [PuttStats.init]) (by norm_num [PuttStats.init])

/-- C2: while `IN_MOTION` with a valid ball, a below-threshold frame
increments the counter and only stops (appending the record, whose state is
already `STOPPED`, to the history by value) when the incremented counter
reaches `stop_frames_required`; an at-or-above-threshold frame resets the
counter to 0 and stays `IN_MOTION`. -/
theorem C2_stop_counter (f : ℚ → ℚ) (s : PuttStats) (ball : TrackedObject) (dt : ℚ)
    (hv : ball.valid = true)
    (hst : s.current.state = PuttState.IN_MOTION)
    (hf : IsSqrtAt f (ball.vx * ball.vx + ball.vy * ball.vy)) :
    (f (ball.vx * ball.vx + ball.vy * ball.vy) < s.motion_threshold →
      s.frames_below_threshold + 1 < s.stop_frames_required →
      (PuttStats.update f s ball dt).current.state = PuttState.IN_MOTION ∧
      (PuttStats.update f s ball dt).frames_below_threshold
        = s.frames_below_threshold + 1 ∧
      (PuttStats.update f s ball dt).history = s.history) ∧
    (f (ball.vx * ball.vx + ball.vy * ball.vy) < s.motion_threshold →
      s.stop_frames_required ≤ s.frames_below_threshold + 1 →
      (PuttStats.update f s ball dt).current.state = PuttState.STOPPED ∧
      (PuttStats.update f s ball dt).history
        = s.history ++ [(PuttStats.update f s ball dt).current]) ∧
    (¬ f (ball.vx * ball.vx + ball.vy * ball.vy) < s.motion_threshold →
      (PuttStats.update f s ball dt).current.state = PuttState.IN_MOTION ∧
      (PuttStats.update f s ball dt).frames_below_threshold = 0 ∧
      (PuttStats.update f s ball dt).history = s.history) := by
  rw [update_valid f s ball dt hv]
  have hA : (PuttStats.accumPhase f s ball dt).current.state = PuttState.IN_MOTION := by
    rw [accum_state]
    exact hst
  refine ⟨?_, ?_, ?_⟩
  · intro hlt hcnt
    rw [trans_inMotion_slow _ _ ball _ hA]
    · simp [hst]
    · rw [accum_threshold]
      exact hlt
    · rw [accum_fbt, accum_required]
      exact hcnt
  · intro hlt hcnt
    rw [trans_inMotion_stop _ _ ball _ hA]
    · simp
    · rw [accum_threshold]
      exact hlt
    · rw [accum_fbt, accum_required]
      exact hcnt
  · intro hge
    rw [trans_inMotion_fast _ _ ball _ hA]
    · simp [hst]
    · rw [accum_threshold]
      exact hge

/-- C2 witness: with threshold 6 and `stop_frames_required = 15`, a slow
frame (speed 5) increments the counter from 0; from 14 it stops and appends
the record (state already `STOPPED`); with threshold 5 a speed-5 frame
resets the counter from 7 to 0. -/
theorem C2_witness :
    ((PuttStats.update sqrtTab
        { motion_threshold := 6, stop_frames_required := 15,
          current := { state := PuttState.IN_MOTION } }
        { class_id := 0, x := 0, y := 0, vx := 3, vy := 4, confidence := 1,
          frames_since_seen := 0, valid := true } 1).current.state
        = PuttState.IN_MOTION ∧
     (PuttStats.update sqrtTab
        { motion_threshold := 6, stop_frames_required := 15,
          current := { state := PuttState.IN_MOTION } }
        { class_id := 0, x := 0, y := 0, vx := 3, vy := 4, confidence := 1,
          frames_since_seen := 0, valid := true } 1).frames_below_threshold = 0 + 1 ∧
     (PuttStats.update sqrtTab
        { motion_threshold := 6, stop_frames_required := 15,
          current := { state := PuttState.IN_MOTION } }
        { class_id := 0, x := 0, y := 0, vx := 3, vy := 4, confidence := 1,
          frames_since_seen := 0, valid := true } 1).history = []) ∧
    ((PuttStats.update sqrtTab
        { motion_threshold := 6, stop_frames_required := 15,
          current := { state := PuttState.IN_MOTION },
          frames_below_threshold := 14 }
        { class_id := 0, x := 0, y := 0, vx := 3, vy := 4, confidence := 1,
          frames_since_seen := 0, valid := true } 1).current.state
        = PuttState.STOPPED ∧
     (PuttStats.update sqrtTab
        { motion_threshold := 6, stop_frames_required := 15,
          current := { state := PuttState.IN_MOTION },
          frames_below_threshold := 14 }
        { class_id := 0, x := 0, y := 0, vx := 3, vy := 4, confidence := 1,
          frames_since_seen := 0, valid := true } 1).history
        = [] ++ [(PuttStats.update sqrtTab
            { motion_threshold := 6, stop_frames_required := 15,
              current := { state := PuttState.IN_MOTION },
              frames_below_threshold := 14 }
            { class_id := 0, x := 0, y := 0, vx := 3, vy := 4, confidence := 1,
              frames_since_seen := 0, valid := true } 1).current]) ∧
    ((PuttStats.update sqrtTab
        { motion_threshold := 5, stop_frames_required := 15,
          current := { state := PuttState.IN_MOTION },
          frames_below_threshold := 7 }
        { class_id := 0, x := 0, y := 0, vx := 3, vy := 4, confidence := 1,
          frames_since_seen := 0, valid := true } 1).current.state
        = PuttState.IN_MOTION ∧
     (PuttStats.update sqrtTab
        { motion_threshold := 5, stop_frames_required := 15,
          current := { state := PuttState.IN_MOTION },
          frames_below_threshold := 7 }
        { class_id := 0, x := 0, y := 0, vx := 3, vy := 4, confidence := 1,
          frames_since_seen := 0, valid := true } 1).frames_below_threshold = 0 ∧
     (PuttStats.update sqrtTab
        { motion_threshold := 5, stop_frames_required := 15,
          current := { state := PuttState.IN_MOTION },
          frames_below_threshold := 7 }
        { class_id := 0, x := 0, y := 0, vx := 3, vy := 4, confidence := 1,
          frames_since_seen := 0, valid := true } 1).history = []) := by
  refine ⟨?_, ?_, ?_⟩
  · exact (C2_stop_counter sqrtTab
      { motion_threshold := 6, stop_frames_required := 15,
        current := { state := PuttState.IN_MOTION } }
      { class_id := 0, x := 0, y := 0, vx := 3, vy := 4, confidence := 1,
        frames_since_seen := 0, valid := true } 1
      rfl rfl ⟨by norm_num [sqrtTab], by norm_num [sqrtTab]⟩).1
      (by norm_num [sqrtTab]) (by norm_num)
  · exact (C2_stop_counter sqrtTab
      { motion_threshold := 6, stop_frames_required := 15,
        current := { state := PuttState.IN_MOTION },
        frames_below_threshold := 14 }
      { class_id := 0, x := 0, y := 0, vx := 3, vy := 4, confidence := 1,
        frames_since_seen := 0, valid := true } 1
      rfl rfl ⟨by norm_num [sqrtTab], by norm_num [sqrtTab]⟩).2.1
      (by norm_num [sqrtTab]) (by norm_num)
  · exact (C2_stop_counter sqrtTab
      { motion_threshold := 5, stop_frames_required := 15,
        current := { state := PuttState.IN_MOTION },
        frames_below_threshold := 7 }
      { class_id := 0, x := 0, y := 0, vx := 3, vy := 4, confidence := 1,
        frames_since_seen := 0, valid := true } 1
      rfl rfl ⟨by norm_num [sqrtTab], by norm_num [sqrtTab]⟩).2.2
      (by norm_num [sqrtTab])

/-- C3 (counterexample): a valid slow ball (Euclidean speed 5, threshold 10)
seen while `IDLE` causes no transition, yet `current_speed` of the live
`PuttData` is overwritten on that frame — so not every field is left
unchanged on a no-transition Idle frame. -/
theorem C3_current_speed_refreshed :
    (PuttStats.init 10 15).current.state = PuttState.IDLE ∧
    (PuttStats.update sqrtTab (PuttStats.init 10 15)
        { class_id := 0, x := 0, y := 0, vx := 3, vy := 4, confidence := 1,
          frames_since_seen := 0, valid := true } 1).current.state
      = PuttState.IDLE ∧
    (PuttStats.update sqrtTab (PuttStats.init 10 15)
        { class_id := 0, x := 0, y := 0, vx := 3, vy := 4, confidence := 1,
          frames_since_seen := 0, valid := true } 1).current.current_speed
      ≠ (PuttStats.init 10 15).current.current_speed := by
  refine ⟨rfl, ?_, ?_⟩ <;>
    norm_num [PuttStats.update, PuttStats.accumPhase, PuttStats.transitionPhase,
      PuttStats.init, sqrtTab]

/-- C3 (amended): on a valid-ball frame processed in `IDLE` or `STOPPED`
with no transition (speed not above the threshold), every field of the live
`PuttData` except `current_speed` is unchanged, `current_speed` is
refreshed to the measured speed, and the history is untouched. -/
theorem C3_quiescent_frames (f : ℚ → ℚ) (s : PuttStats) (ball : TrackedObject)
    (dt : ℚ) (hv : ball.valid = true)
    (hst : s.current.state = PuttState.IDLE ∨ s.current.state = PuttState.STOPPED)
    (hle : ¬ f (ball.vx * ball.vx + ball.vy * ball.vy) > s.motion_threshold) :
    (PuttStats.update f s ball dt).current
      = { s.current with
          current_speed := f (ball.vx * ball.vx + ball.vy * ball.vy) } ∧
    (PuttStats.update f s ball dt).history = s.history := by
  rw [update_valid f s ball dt hv]
  have hne : s.current.state ≠ PuttState.IN_MOTION := by
    rcases hst with h | h <;> rw [h] <;> simp
  rcases hst with h | h
  · rw [trans_idle_stay]
    · exact ⟨accum_not_inMotion f s ball dt hne, accum_history f s ball dt⟩
    · rw [accum_state]
      exact h
    · rw [accum_threshold]
      exact hle
  · rw [trans_stopped_stay]
    · exact ⟨accum_not_inMotion f s ball dt hne, accum_history f s ball dt⟩
    · rw [accum_state]
      exact h
    · rw [accum_threshold]
      exact hle

/-- C3 witness: the concrete Idle no-transition frame of the
counterexample, fully characterized. -/
theorem C3_witness :
    (PuttStats.update sqrtTab (PuttStats.init 10 15)
        { class_id := 0, x := 0, y := 0, vx := 3, vy := 4, confidence := 1,
          frames_since_seen := 0, valid := true } 1).current
      = { (PuttStats.init 10 15).current with
          current_speed := sqrtTab ((3 : ℚ) * 3 + 4 * 4) } ∧
    (PuttStats.update sqrtTab (PuttStats.init 10 15)
        { class_id := 0, x := 0, y := 0, vx := 3, vy := 4, confidence := 1,
          frames_since_seen := 0, valid := true } 1).history
      = (PuttStats.init 10 15).history :=
  C3_quiescent_frames sqrtTab (PuttStats.init 10 15)
    { class_id := 0, x := 0, y := 0, vx := 3, vy := 4, confidence := 1,
      frames_since_seen := 0, valid := true } 1
    rfl (Or.inl rfl) (by norm_num [sqrtTab, PuttStats.init])

/-- Specification shape for the per-class best-detection selection, relative
to an incoming accumulator `(b0, c0)`: either the accumulator survives and
no detection of the class beats `c0`, or the result is the first detection
of the class whose confidence strictly exceeds `c0` and is not beaten
later (ties in its favor). -/
def BestChar (cid : Int) (ds : List Detection) (b0 : Option Detection) (c0 : ℚ)
    (r : Option Detection) : Prop :=
  (r = b0 ∧ ∀ d ∈ ds, d.class_id = cid → d.confidence ≤ c0) ∨
  (∃ d l1 l2, r = some d ∧ ds = l1 ++ d :: l2 ∧ d.class_id = cid ∧
    c0 < d.confidence ∧
    (∀ e ∈ l1, e.class_id = cid → e.confidence < d.confidence) ∧
    (∀ e ∈ l2, e.class_id = cid → e.confidence ≤ d.confidence))

lemma bestChar_cons_skip (cid : Int) (d : Detection) (ds : List Detection)
    (b0 : Option Detection) (c0 : ℚ) (r : Option Detection)
    (hd : d.class_id = cid → d.confidence ≤ c0)
    (h : BestChar cid ds b0 c0 r) : BestChar cid (d :: ds) b0 c0 r := by
  rcases h with ⟨hr, hall⟩ | ⟨d', l1, l2, hr, hds, hcid, hconf, hl1, hl2⟩
  · refine Or.inl ⟨hr, ?_⟩
    intro e he hc
    rcases List.mem_cons.mp he with rfl | he'
    · exact hd hc
    · exact hall e he' hc
  · refine Or.inr ⟨d', d :: l1, l2, hr, by rw [hds]; rfl, hcid, hconf, ?_, hl2⟩
    intro e he hc
    rcases List.mem_cons.mp he with rfl | he'
    · exact lt_of_le_of_lt (hd hc) hconf
    · exact hl1 e he' hc

lemma bestChar_cons_take (cid : Int) (d : Detection) (ds : List Detection)
    (b0 : Option Detection) (c0 : ℚ) (r : Option Detection)
    (hcid : d.class_id = cid) (hconf : c0 < d.confidence)
    (h : BestChar cid ds (some d) d.confidence r) :
    BestChar cid (d :: ds) b0 c0 r := by
  rcases h with ⟨hr, hall⟩ | ⟨d', l1, l2, hr, hds, hcid', hconf', hl1, hl2⟩
  · exact Or.inr ⟨d, [], ds, hr, rfl, hcid, hconf, by simp, hall⟩
  · refine Or.inr ⟨d', d :: l1, l2, hr, by rw [hds]; rfl, hcid',
      lt_trans hconf hconf', ?_, hl2⟩
    intro e he hc
    rcases List.mem_cons.mp he with rfl | he'
    · exact hconf'
    · exact hl1 e he' hc

lemma scan_char (ds : List Detection) : ∀ (bb bp : Option Detection) (cb cp : ℚ),
    BestChar 0 ds bb cb (scanDetections ds bb bp cb cp).1 ∧
    BestChar 1 ds bp cp (scanDetections ds bb bp cb cp).2 := by
  induction ds with
  | nil =>
    intro bb bp cb cp
    exact ⟨Or.inl ⟨rfl, by simp⟩, Or.inl ⟨rfl, by simp⟩⟩
  | cons d ds ih =>
    intro bb bp cb cp
    by_cases h0 : d.class_id = 0 ∧ d.confidence > cb
    · have hrw : scanDetections (d :: ds) bb bp cb cp
          = scanDetections ds (some d) bp d.confidence cp := by
        simp only [scanDetections]
        rw [if_pos h0]
      rw [hrw]
      obtain ⟨ihb, ihp⟩ := ih (some d) bp d.confidence cp
      refine ⟨bestChar_cons_take 0 d ds bb cb _ h0.1 h0.2 ihb,
              bestChar_cons_skip 1 d ds bp cp _ ?_ ihp⟩
      intro hc
      rw [h0.1] at hc
      exact absurd hc (by norm_num)
    · by_cases h1 : d.class_id = 1 ∧ d.confidence > cp
      · have hrw : scanDetections (d :: ds) bb bp cb cp
            = scanDetections ds bb (some d) cb d.confidence := by
          simp only [scanDetections]
          rw [if_neg h0, if_pos h1]
        rw [hrw]
        obtain ⟨ihb, ihp⟩ := ih bb (some d) cb d.confidence
        refine ⟨bestChar_cons_skip 0 d ds bb cb _ ?_ ihb,
                bestChar_cons_take 1 d ds bp cp _ h1.1 h1.2 ihp⟩
        intro hc
        rw [h1.1] at hc
        exact absurd hc (by norm_num)
      · have hrw : scanDetections (d :: ds) bb bp cb cp
            = scanDetections ds bb bp cb cp := by
          simp only [scanDetections]
          rw [if_neg h0, if_neg h1]
        rw [hrw]
        obtain ⟨ihb, ihp⟩ := ih bb bp cb cp
        refine ⟨bestChar_cons_skip 0 d ds bb cb _ ?_ ihb,
                bestChar_cons_skip 1 d ds bp cp _ ?_ ihp⟩
        · intro hc
          by_contra hgt
          exact h0 ⟨hc, not_le.mp hgt⟩
        · intro hc
          by_contra hgt
          exact h1 ⟨hc, not_le.mp hgt⟩

/-- C8 (counterexample): a ball detection with confidence exactly 0 is
present in the list, yet the selection loop picks no ball detection — the
loop's best-confidence accumulator starts at 0 and only a strictly greater
confidence replaces it, so the claimed "highest-confidence detection of
that class (none only when no detection of the class is present)" fails. -/
theorem C8_zero_confidence_ignored :
    ({ class_id := 0, confidence := 0, x1 := 0, y1 := 0, x2 := 2, y2 := 2 }
        : Detection).class_id = 0 ∧
    (scanDetections
        [{ class_id := 0, confidence := 0, x1 := 0, y1 := 0, x2 := 2, y2 := 2 }]
        none none 0 0).1 = none := by
  constructor
  · rfl
  · simp [scanDetections]

/-- C8 (amended): for every detection list, the ball slot of the selection
loop returns none exactly when every class-0 detection has confidence ≤ 0,
and otherwise returns the first class-0 detection with positive confidence
that no earlier class-0 detection matches and no later class-0 detection
beats (first occurrence wins ties); symmetrically for the putter slot with
class 1; and `Tracker::update` feeds exactly these selections to
`update_track`.  The selection is a total function, so it cannot crash. -/
theorem C8_best_detection (dets : List Detection) :
    BestChar 0 dets none 0 (scanDetections dets none none 0 0).1 ∧
    BestChar 1 dets none 0 (scanDetections dets none none 0 0).2 ∧
    (∀ (t : Tracker) (dt : ℚ),
      Tracker.update t dets dt
        = { t with
            ball := t.update_track t.ball (scanDetections dets none none 0 0).1 dt
            putter := t.update_track t.putter (scanDetections dets none none 0 0).2 dt }) :=
  ⟨(scan_char dets none none 0 0).1, (scan_char dets none none 0 0).2,
   fun _ _ => rfl⟩

/-! ### Break-distance lemmas -/

lemma accum_break_mono (f : ℚ → ℚ) (s : PuttStats) (ball : TrackedObject) (dt : ℚ) :
    s.current.break_distance
      ≤ (PuttStats.accumPhase f s ball dt).current.break_distance := by
  simp only [PuttStats.accumPhase]
  split_ifs with h1 h2 h3 h4 h5 h6 h7
  all_goals simp_all
  all_goals linarith

lemma accum_break_nodir (f : ℚ → ℚ) (s : PuttStats) (ball : TrackedObject) (dt : ℚ)
    (hd : s.has_direction = false) :
    (PuttStats.accumPhase f s ball dt).current.break_distance
      = s.current.break_distance := by
  simp only [PuttStats.accumPhase]
  split_ifs <;> simp_all

lemma accum_break_eq (f : ℚ → ℚ) (s : PuttStats) (ball : TrackedObject) (dt : ℚ)
    (hp : s.has_prev = true) (hst : s.current.state = PuttState.IN_MOTION)
    (hd : s.has_direction = true) :
    (PuttStats.accumPhase f s ball dt).current.break_distance
      = max s.current.break_distance
          |(ball.x - s.current.start_x) * s.dir_y
            - (ball.y - s.current.start_y) * s.dir_x| := by
  simp only [PuttStats.accumPhase]
  simp only [hp, hst, hd, if_true]
  split_ifs with h1 h2 h3
  · exact (max_eq_right (le_of_lt h2)).symm
  · exact (max_eq_left (not_lt.mp h2)).symm
  · exact (max_eq_right (le_of_lt h3)).symm
  · exact (max_eq_left (not_lt.mp h3)).symm

/-- One full in-motion frame that keeps the ball fast: the update is the
accumulation phase with the below-threshold counter cleared. -/
lemma step_inMotion (f : ℚ → ℚ) (s : PuttStats) (ball : TrackedObject) (dt : ℚ)
    (hv : ball.valid = true) (hst : s.current.state = PuttState.IN_MOTION)
    (hge : ¬ f (ball.vx * ball.vx + ball.vy * ball.vy) < s.motion_threshold) :
    PuttStats.update f s ball dt
      = { PuttStats.accumPhase f s ball dt with frames_below_threshold := 0 } := by
  rw [update_valid f s ball dt hv]
  refine trans_inMotion_fast _ _ ball _ ?_ ?_
  · rw [accum_state]
    exact hst
  · rw [accum_threshold]
    exact hge

/-- The running-max induction for a gap-free fast in-motion run. -/
lemma break_running_max (f : ℚ → ℚ) (frames : List (TrackedObject × ℚ)) :
    ∀ (s : PuttStats),
      s.current.state = PuttState.IN_MOTION → s.has_prev = true →
      s.has_direction = true →
      (∀ fr ∈ frames, fr.1.valid = true ∧
        ¬ f (fr.1.vx * fr.1.vx + fr.1.vy * fr.1.vy) < s.motion_threshold) →
      (runUpdates f s frames).current.break_distance
        = frames.foldl
            (fun m fr => max m
              |(fr.1.x - s.current.start_x) * s.dir_y
                - (fr.1.y - s.current.start_y) * s.dir_x|)
            s.current.break_distance := by
  induction frames with
  | nil =>
    intro s _ _ _ _
    rfl
  | cons fr rest ih =>
    intro s hst hp hd hall
    obtain ⟨hv, hge⟩ := hall fr (List.mem_cons_self fr rest)
    have hstep := step_inMotion f s fr.1 fr.2 hv hst hge
    have hrest := ih { PuttStats.accumPhase f s fr.1 fr.2 with frames_below_threshold := 0 }
      (by rw [accum_state]; exact hst)
      (by rw [accum_has_prev])
      (by rw [accum_has_direction]; exact hd)
      (by
        intro fr2 h2
        refine ⟨(hall fr2 (List.mem_cons_of_mem fr h2)).1, ?_⟩
        rw [accum_threshold]
        exact (hall fr2 (List.mem_cons_of_mem fr h2)).2)
    show (runUpdates f (PuttStats.update f s fr.1 fr.2) rest).current.break_distance = _
    rw [hstep, hrest]
    rw [accum_break_eq f s fr.1 fr.2 hp hst hd]
    simp only [accum_start_x, accum_start_y, accum_dir_x, accum_dir_y,
      List.foldl_cons]

/-- C5 (counterexample): a putt enters motion at `(0,0)` with direction
`(0,1)`, deviates laterally by 1, loses the ball for one frame, and is
reacquired at `(50,10)` — a lateral deviation of 50 from the launch line.
On that reacquisition frame `break_distance` is still 1, not the claimed
maximum over the frames so far (which includes the deviation of 50):
frames with no previous-position continuity are skipped by the break
computation. -/
theorem C5_gap_frame_excluded :
    (runUpdates sqrtTab (PuttStats.init 5 15)
        [({ class_id := 0, x := 0, y := 0, vx := 0, vy := 10, confidence := 1,
            frames_since_seen := 0, valid := true }, 1),
         ({ class_id := 0, x := 1, y := 5, vx := 0, vy := 10, confidence := 1,
            frames_since_seen := 0, valid := true }, 1),
         ({ class_id := 0, x := 0, y := 0, vx := 0, vy := 0, confidence := 0,
            frames_since_seen := 3, valid := false }, 1),
         ({ class_id := 0, x := 50, y := 10, vx := 0, vy := 10, confidence := 1,
            frames_since_seen := 0, valid := true }, 1)]).current.state
      = PuttState.IN_MOTION ∧
    (runUpdates sqrtTab (PuttStats.init 5 15)
        [({ class_id := 0, x := 0, y := 0, vx := 0, vy := 10, confidence := 1,
            frames_since_seen := 0, valid := true }, 1),
         ({ class_id := 0, x := 1, y := 5, vx := 0, vy := 10, confidence := 1,
            frames_since_seen := 0, valid := true }, 1),
         ({ class_id := 0, x := 0, y := 0, vx := 0, vy := 0, confidence := 0,
            frames_since_seen := 3, valid := false }, 1),
         ({ class_id := 0, x := 50, y := 10, vx := 0, vy := 10, confidence := 1,
            frames_since_seen := 0, valid := true }, 1)]).has_direction = true ∧
    (runUpdates sqrtTab (PuttStats.init 5 15)
        [({ class_id := 0, x := 0, y := 0, vx := 0, vy := 10, confidence := 1,
            frames_since_seen := 0, valid := true }, 1),
         ({ class_id := 0, x := 1, y := 5, vx := 0, vy := 10, confidence := 1,
            frames_since_seen := 0, valid := true }, 1),
         ({ class_id := 0, x := 0, y := 0, vx := 0, vy := 0, confidence := 0,
            frames_since_seen := 3, valid := false }, 1),
         ({ class_id := 0, x := 50, y := 10, vx := 0, vy := 10, confidence := 1,
            frames_since_seen := 0, valid := true }, 1)]).current.break_distance = 1 ∧
    |((50 : ℚ) - 0) * 1 - ((10 : ℚ) - 0) * 0| = 50 ∧
    (runUpdates sqrtTab (PuttStats.init 5 15)
        [({ class_id := 0, x := 0, y := 0, vx := 0, vy := 10, confidence := 1,
            frames_since_seen := 0, valid := true }, 1),
         ({ class_id := 0, x := 1, y := 5, vx := 0, vy := 10, confidence := 1,
            frames_since_seen := 0, valid := true }, 1),
         ({ class_id := 0, x := 0, y := 0, vx := 0, vy := 0, confidence := 0,
            frames_since_seen := 3, valid := false }, 1),
         ({ class_id := 0, x := 50, y := 10, vx := 0, vy := 10, confidence := 1,
            frames_since_seen := 0, valid := true }, 1)]).current.start_x = 0 ∧
    (runUpdates sqrtTab (PuttStats.init 5 15)
        [({ class_id := 0, x := 0, y := 0, vx := 0, vy := 10, confidence := 1,
            frames_since_seen := 0, valid := true }, 1),
         ({ class_id := 0, x := 1, y := 5, vx := 0, vy := 10, confidence := 1,
            frames_since_seen := 0, valid := true }, 1),
         ({ class_id := 0, x := 0, y := 0, vx := 0, vy := 0, confidence := 0,
            frames_since_seen := 3, valid := false }, 1),
         ({ class_id := 0, x := 50, y := 10, vx := 0, vy := 10, confidence := 1,
            frames_since_seen := 0, valid := true }, 1)]).dir_y = 1 := by
  norm_num [runUpdates, PuttStats.update, PuttStats.accumPhase,
    PuttStats.transitionPhase, PuttStats.enterMotion, PuttStats.init, sqrtTab]

/-- C5 (amended): within a putt, `break_distance` is monotonically
non-decreasing across update calls; with no captured launch direction it
never changes (hence stays 0 for the putt); and over a gap-free run of
valid fast frames it equals the running maximum of the absolute cross
product of (position − start) with the stored unit direction.  Frames
without previous-position continuity (the first frame after reacquisition)
are excluded from the maximum. -/
theorem C5_break_is_running_max (f : ℚ → ℚ) (s : PuttStats)
    (frames : List (TrackedObject × ℚ)) :
    (∀ (ball : TrackedObject) (dt : ℚ), s.current.state = PuttState.IN_MOTION →
      s.current.break_distance ≤ (PuttStats.update f s ball dt).current.break_distance) ∧
    (∀ (ball : TrackedObject) (dt : ℚ), s.current.state = PuttState.IN_MOTION →
      s.has_direction = false →
      (PuttStats.update f s ball dt).current.break_distance
        = s.current.break_distance) ∧
    (s.current.state = PuttState.IN_MOTION → s.has_prev = true →
      s.has_direction = true →
      (∀ fr ∈ frames, fr.1.valid = true ∧
        ¬ f (fr.1.vx * fr.1.vx + fr.1.vy * fr.1.vy) < s.motion_threshold) →
      (runUpdates f s frames).current.break_distance
        = frames.foldl
            (fun m fr => max m
              |(fr.1.x - s.current.start_x) * s.dir_y
                - (fr.1.y - s.current.start_y) * s.dir_x|)
            s.current.break_distance) := by
  refine ⟨?_, ?_, ?_⟩
  · intro ball dt hst
    cases hv : ball.valid with
    | false =>
      rw [update_invalid f s ball dt hv]
    | true =>
      rw [update_valid f s ball dt hv]
      rw [trans_inMotion_break _ _ ball _ (by rw [accum_state]; exact hst)]
      exact accum_break_mono f s ball dt
  · intro ball dt hst hd
    cases hv : ball.valid with
    | false =>
      rw [update_invalid f s ball dt hv]
    | true =>
      rw [update_valid f s ball dt hv]
      rw [trans_inMotion_break _ _ ball _ (by rw [accum_state]; exact hst)]
      exact accum_break_nodir f s ball dt hd
  · intro hst hp hd hall
    exact break_running_max f frames s hst hp hd hall

/-- C5 witness: a concrete two-frame gap-free run whose break distance is
the running maximum `2` even though the last frame deviates only by 1. -/
theorem C5_witness :
    (runUpdates sqrtTab
        { motion_threshold := 5, stop_frames_required := 15,
          current := { state := PuttState.IN_MOTION, start_x := 0, start_y := 0 },
          has_prev := true, prev_x := 0, prev_y := 0,
          dir_x := 0, dir_y := 1, has_direction := true }
        [({ class_id := 0, x := 2, y := 3, vx := 0, vy := 10, confidence := 1,
            frames_since_seen := 0, valid := true }, 1),
         ({ class_id := 0, x := 1, y := 6, vx := 0, vy := 10, confidence := 1,
            frames_since_seen := 0, valid := true }, 1)]).current.break_distance
      = ([({ class_id := 0, x := 2, y := 3, vx := 0, vy := 10, confidence := 1,
             frames_since_seen := 0, valid := true }, 1),
          ({ class_id := 0, x := 1, y := 6, vx := 0, vy := 10, confidence := 1,
             frames_since_seen := 0, valid := true }, 1)] :
            List (TrackedObject × ℚ)).foldl
          (fun m fr => max m |(fr.1.x - 0) * 1 - (fr.1.y - 0) * 0|) 0 := by
  have h := (C5_break_is_running_max sqrtTab
    { motion_threshold := 5, stop_frames_required := 15,
      current := { state := PuttState.IN_MOTION, start_x := 0, start_y := 0 },
      has_prev := true, prev_x := 0, prev_y := 0,
      dir_x := 0, dir_y := 1, has_direction := true }
    [({ class_id := 0, x := 2, y := 3, vx := 0, vy := 10, confidence := 1,
        frames_since_seen := 0, valid := true }, 1),
     ({ class_id := 0, x := 1, y := 6, vx := 0, vy := 10, confidence := 1,
        frames_since_seen := 0, valid := true }, 1)]).2.2
    rfl rfl rfl
    (by
      intro fr hfr
      fin_cases hfr <;> exact ⟨rfl, by norm_num [sqrtTab]⟩)
  exact h

end GolfSim
